import Mathlib

/-!
Verification of the weather-monitor and email-notifier script (`src/index.js`).

The development shallowly embeds the script's pure logic:

* JavaScript `Date` accessors (`getHours`, `getDay`, `getDate`, `setHours`,
  `setDate`) are modelled over epoch milliseconds (`Int`) together with a
  fixed local-timezone offset in minutes east of UTC (`tz`).  Daylight-saving
  transitions are outside the model: the offset is constant.
* JavaScript numbers are modelled as `Int` (every numeric value the script
  manipulates is an integer in the claims under study).
* A JavaScript object possibly missing a key (or holding `null`) is modelled
  as `String → Option Int`; reading `.value` from an absent/null entry throws
  in JavaScript, which the embedding renders as an `Option.none` result.
* `Nat → String` conversion of array indices (template literals such as
  `` wid${i} ``) is modelled by `natRepr`, the usual most-significant-first
  decimal representation.
-/

/-- Decimal digits of a natural number, most significant first, prepended to
`acc`; models the decimal conversion performed by JavaScript template
literals on array indices.  The first argument is recursion fuel (any value
`≥ n` yields the digits of `n`); structural recursion on the fuel keeps the
function reducible by the kernel. -/
def natReprAux (fuel n : Nat) (acc : List Char) : List Char :=
  match fuel with
  | 0 => Nat.digitChar n :: acc
  | fuel + 1 =>
    if n < 10 then Nat.digitChar n :: acc
    else natReprAux fuel (n / 10) (Nat.digitChar (n % 10) :: acc)

/-- Decimal string representation of a natural number. -/
def natRepr (n : Nat) : String :=
  String.mk (natReprAux n n [])

/-- Numeric value of a most-significant-first digit list; used to invert
`natReprAux`. -/
def digitsVal (l : List Char) : Nat :=
  l.foldl (fun a c => a * 10 + (c.toNat - 48)) 0

theorem digitChar_toNat (d : Nat) (h : d < 10) : (Nat.digitChar d).toNat = 48 + d := by
  interval_cases d <;> decide

theorem digitsVal_natReprAux : ∀ (fuel n : Nat) (acc : List Char), n ≤ fuel →
    digitsVal (natReprAux fuel n acc) =
      acc.foldl (fun a c => a * 10 + (c.toNat - 48)) n := by
  intro fuel
  induction fuel with
  | zero =>
    intro n acc h
    have hn : n = 0 := by omega
    subst hn
    simp [natReprAux, digitsVal, digitChar_toNat 0 (by omega)]
  | succ fuel ih =>
    intro n acc h
    rw [natReprAux]
    by_cases h10 : n < 10
    · simp only [h10, if_true]
      simp [digitsVal, digitChar_toNat n h10]
    · simp only [h10, if_false]
      rw [ih (n / 10) (Nat.digitChar (n % 10) :: acc) (by omega)]
      simp only [List.foldl_cons]
      rw [digitChar_toNat (n % 10) (by omega)]
      congr 1
      omega

theorem natRepr_injective : Function.Injective natRepr := by
  intro m n h
  have h2 : natReprAux m m [] = natReprAux n n [] := by
    have := congrArg String.data h
    simpa [natRepr] using this
  have h3 := congrArg digitsVal h2
  rw [digitsVal_natReprAux m m [] (le_refl m),
      digitsVal_natReprAux n n [] (le_refl n)] at h3
  simpa using h3

/-! ## Model of the JavaScript `Date` library

`t` is an instant in epoch milliseconds, `tz` the constant local offset in
minutes east of UTC.  ECMA-262 defines the accessors through
`LocalTime(t) = t + offset` and floor divisions, which `Int./` and `Int.%`
provide (they are euclidean, hence floor for the positive literal divisors
used here). -/

/-- Local clock reading of instant `t`, in milliseconds. -/
def localMs (tz t : Int) : Int := t + tz * 60000

/-- ECMA `Day(LocalTime(t))`: the local civil-day number of the instant. -/
def jsDayNumber (tz t : Int) : Int := localMs tz t / 86400000

/-- Models `Date.prototype.getHours`: `HourFromTime(LocalTime(t))`. -/
def jsGetHours (tz t : Int) : Int := (localMs tz t / 3600000) % 24

/-- Models `Date.prototype.getMinutes`: `MinFromTime(LocalTime(t))`. -/
def jsGetMinutes (tz t : Int) : Int := (localMs tz t / 60000) % 60

/-- Models `Date.prototype.getSeconds`: `SecFromTime(LocalTime(t))`. -/
def jsGetSeconds (tz t : Int) : Int := (localMs tz t / 1000) % 60

/-- Models `Date.prototype.getMilliseconds`: `msFromTime(LocalTime(t))`. -/
def jsGetMilliseconds (tz t : Int) : Int := localMs tz t % 1000

/-- Models `Date.prototype.getDay` (day of week, `0` = Sunday):
`WeekDay(LocalTime(t)) = (Day + 4) mod 7`. -/
def jsGetDay (tz t : Int) : Int := (jsDayNumber tz t + 4) % 7

/-- Proleptic-Gregorian civil date `(year, month, day-of-month)` of a day
number counted from 1970-01-01; the standard era-based conversion
algorithm. -/
def civilFromDays (z : Int) : Int × Int × Int :=
  let z2 := z + 719468
  let era := z2 / 146097
  let doe := z2 - era * 146097
  let yoe := (doe - doe / 1460 + doe / 36524 - doe / 146096) / 365
  let y := yoe + era * 400
  let doy := doe - (365 * yoe + yoe / 4 - yoe / 100)
  let mp := (5 * doy + 2) / 153
  let d := doy - (153 * mp + 2) / 5 + 1
  let m := if mp < 10 then mp + 3 else mp - 9
  (if m ≤ 2 then y + 1 else y, m, d)

/-- Models `Date.prototype.getDate` (day of month, 1-based):
`DateFromTime(LocalTime(t))`. -/
def jsGetDate (tz t : Int) : Int := (civilFromDays (jsDayNumber tz t)).2.2

/-- Models `Date.prototype.setHours(h, mi, s)` with the milliseconds argument
omitted: the local day and the millisecond component are kept, the hour,
minute and second fields are replaced. -/
def jsSetHours (tz t h mi s : Int) : Int :=
  jsDayNumber tz t * 86400000 + h * 3600000 + mi * 60000 + s * 1000 +
    localMs tz t % 1000 - tz * 60000

/-- Models `Date.prototype.setDate d`: per ECMA-262 this is
`MakeDate (MakeDay (year, month, d), timeWithinDay)`, and
`MakeDay (year, month, d)` equals the day number of the first of the month
plus `d - 1`.  Since `getDate t = dayNumber t - firstOfMonth + 1`, the new
day number is `dayNumber t + (d - getDate t)`, which is the form used here
(it also captures the out-of-range day rollover of `setDate`). -/
def jsSetDate (tz t d : Int) : Int :=
  (jsDayNumber tz t + (d - jsGetDate tz t)) * 86400000 +
    localMs tz t % 86400000 - tz * 60000

/-! ## Data model -/

/-- An API field carrying `{value, units}`; numeric values are modelled as
`Int`. -/
structure Measurement where
  value : Int
  units : String
deriving DecidableEq, Repr

/-- One raw hourly weather record as consumed by the script:
`observation_time.value` is modelled directly as the epoch-millisecond
instant the string timestamp denotes, `weather_code.value` as the icon
name string. -/
structure WeatherRecord where
  observation_time : Int
  weather_code : String
  temp : Measurement
  humidity : Measurement
  wind_speed : Measurement
deriving DecidableEq, Repr

/-- One formatted weather entry (the object pushed by `formatWeatherData`). -/
structure FormattedWeather where
  hour : Int
  weather_image : String
  cid : String
  temp : Int
  temp_unit : String
  humidity : Int
  humidity_unit : String
  wind_speed : Int
  wind_speed_unit : String
deriving DecidableEq, Repr

/-- One formatted air-quality entry (the object pushed by
`formatAirQualityData`). -/
structure FormattedAir where
  indicator : String
  current_value : Int
  air_image : String
  cid : String
deriving DecidableEq, Repr

/-- An email attachment `{path, cid}`. -/
structure Attachment where
  path : String
  cid : String
deriving DecidableEq, Repr

/-- The fixed, ordered indicator set `AIR_QUALITY_INDICATOR`. -/
def AIR_QUALITY_INDICATOR : List String :=
  ["pm10", "pm25", "o3", "no2", "co", "so2"]

/-! ## Query builder (`queryBuilder`, src/index.js lines 31-51)

An options mapping is a list of key–value pairs in iteration order; a value
is a number, a string, an array, or anything else (skipped). -/

/-- A JavaScript option value as discriminated by `queryBuilder`'s
`typeof`/`Array.isArray` tests. -/
inductive JSValue where
  | num : Int → JSValue
  | str : String → JSValue
  | arr : List JSValue → JSValue
  | other : JSValue

/-- Decimal string representation of an integer, modelling the template
literal conversion of a JavaScript integral number. -/
def intRepr (i : Int) : String :=
  match i with
  | .ofNat n => natRepr n
  | .negSucc n => "-" ++ natRepr (n + 1)

/-- The test `request[request.length - 1] !== "?"` (negated): whether the
accumulated string's last character is `'?'`. -/
def lastIsQuestionMark (s : String) : Bool :=
  s.data.getLast? == some '?'

/-- One `request += "&"; request += `${key}=${value}`` step of
`queryBuilder`, with the `&` added only when the accumulated string does not
end in `'?'`; `p` is the already-assembled `key=value` text. -/
def pushParam (req p : String) : String :=
  (if lastIsQuestionMark req then req else req ++ "&") ++ p

/-- The body of `queryBuilder`'s `forEach` for a single key–value pair:
numbers and strings are emitted, arrays emit their number/string elements
in order, everything else is skipped. -/
def queryStep (req : String) (kv : String × JSValue) : String :=
  match kv.2 with
  | .num n => pushParam req (kv.1 ++ "=" ++ intRepr n)
  | .str s => pushParam req (kv.1 ++ "=" ++ s)
  | .arr l =>
    l.foldl (fun r e =>
      match e with
      | .num n => pushParam r (kv.1 ++ "=" ++ intRepr n)
      | .str s => pushParam r (kv.1 ++ "=" ++ s)
      | _ => r) req
  | .other => req

/-- Translation of `queryBuilder(request, options)`: append `"?"`, then fold the option
pairs in iteration order. -/
def queryBuilder (request : String) (options : List (String × JSValue)) : String :=
  options.foldl queryStep (request ++ "?")

/-! ## Formatters (`formatWeatherData`, `formatAirQualityData`) -/

/-- Body of `formatWeatherData`'s `forEach` for index `i`: hour of day from
the observation timestamp, icon path from the weather code, correlation id
`wid<i>`, and the three `{value, units}` copies. -/
def formatWeatherEntry (tz : Int) (i : Nat) (e : WeatherRecord) : FormattedWeather :=
  { hour := jsGetHours tz e.observation_time
    weather_image := "./summary-icons/" ++ e.weather_code ++ ".png"
    cid := "wid" ++ natRepr i
    temp := e.temp.value
    temp_unit := e.temp.units
    humidity := e.humidity.value
    humidity_unit := e.humidity.units
    wind_speed := e.wind_speed.value
    wind_speed_unit := e.wind_speed.units }

/-- The `forEach`-with-index loop of `formatWeatherData`, with `k` the index
of the first remaining record. -/
def formatWeatherDataAux (tz : Int) (k : Nat) : List WeatherRecord → List FormattedWeather
  | [] => []
  | e :: rest => formatWeatherEntry tz k e :: formatWeatherDataAux tz (k + 1) rest

/-- Translation of `formatWeatherData(data)` (src/index.js lines 85-108). -/
def formatWeatherData (tz : Int) (data : List WeatherRecord) : List FormattedWeather :=
  formatWeatherDataAux tz 0 data

/-- The `forEach` loop of `formatAirQualityData` over the remaining
indicators, `k` being the index of the first one.  Reading
`airQualityData[indicator].value` for an absent (or null) indicator throws
in JavaScript; the embedding returns `none` for the whole call in that
case. -/
def formatAirQualityDataAux (aq : String → Option Int) (k : Nat) :
    List String → Option (List FormattedAir)
  | [] => some []
  | ind :: rest =>
    match aq ind, formatAirQualityDataAux aq (k + 1) rest with
    | some v, some l =>
      some ({ indicator := ind
              current_value := v
              air_image := "./legends/" ++ ind ++ "-legend.png"
              cid := "aid" ++ natRepr k } :: l)
    | _, _ => none

/-- Translation of `formatAirQualityData(airQualityData)` (src/index.js lines 111-125):
iterates the fixed indicator set, not the input object's keys. -/
def formatAirQualityData (aq : String → Option Int) : Option (List FormattedAir) :=
  formatAirQualityDataAux aq 0 AIR_QUALITY_INDICATOR

/-! ## Weather forecast job (src/index.js lines 180-221) -/

/-- The fixed `desiredHours` target set of the forecast job. -/
def desiredHours : List Int := [8, 10, 12, 14, 16, 18, 20, 22]

/-- The hourly-record filter of `weatherForecastJob` (lines 187-192): keep a
record when its hour of day is in `desiredHours` and its `getDay()` (day of
week) coincides with `new Date().getDay()` for the current instant `now`. -/
def weatherForecastFilter (tz now : Int) (weatherData : List WeatherRecord) :
    List WeatherRecord :=
  weatherData.filter fun e =>
    desiredHours.contains (jsGetHours tz e.observation_time) &&
      (jsGetDay tz e.observation_time == jsGetDay tz now)

/-- The attachment list built by `weatherForecastJob` (lines 199-212): an
empty array into which first one attachment per formatted weather entry and
then one per formatted air-quality entry is pushed. -/
def forecastAttachments (fw : List FormattedWeather) (fa : List FormattedAir) :
    List Attachment :=
  let attachments : List Attachment := []
  let attachments := fw.foldl
    (fun acc e => acc ++ [{ path := e.weather_image, cid := e.cid }]) attachments
  fa.foldl (fun acc e => acc ++ [{ path := e.air_image, cid := e.cid }]) attachments

/-! ## Air quality alert job (src/index.js lines 224-256) -/

/-- The static `thresholds` table of `airQualityAlertJob`. -/
def thresholds (indicator : String) : Option Int :=
  if indicator = "co" then some 7000
  else if indicator = "no2" then some 230
  else if indicator = "o3" then some 145
  else if indicator = "pm10" then some 204
  else if indicator = "pm25" then some 45
  else if indicator = "so2" then some 131
  else none

/-- JavaScript `value > table[indicator]` where the table entry may be
absent: a `>` comparison against `undefined` is `false` (NaN semantics), a
comparison against a number is numeric. -/
def jsGtOption (v : Int) (t : Option Int) : Bool :=
  match t with
  | some w => w < v
  | none => false

/-- The selection `formattedAirQualityData.filter(e => e.current_value >
thresholds[e.indicator])` (lines 238-240). -/
def alertSelection (l : List FormattedAir) : List FormattedAir :=
  l.filter fun e => jsGtOption e.current_value (thresholds e.indicator)

/-- The attachment list built for the alert email (lines 244-250): one
attachment per selected entry, in order. -/
def alertAttachments (sel : List FormattedAir) : List Attachment :=
  let attachments : List Attachment := []
  sel.foldl (fun acc e => acc ++ [{ path := e.air_image, cid := e.cid }]) attachments

/-- The observable outcome of one `airQualityAlertJob` run on an air-quality
payload `aq`: `none` when formatting throws, otherwise the selected entries
together with whether an alert email is sent (the `if
(alertsForTheseIndicators.length)` test). -/
def airQualityAlertJob (aq : String → Option Int) : Option (List FormattedAir × Bool) :=
  match formatAirQualityData aq with
  | none => none
  | some formattedAirQualityData =>
    let alertsForTheseIndicators := alertSelection formattedAirQualityData
    some (alertsForTheseIndicators, alertsForTheseIndicators.length != 0)

/-! ## Scheduler (`main`, src/index.js lines 259-310) -/

/-- The first fire instant of the forecast job computed by `main` at startup
instant `now` (lines 266-274): `new Date().setHours(8, 0, 0)`, replaced by
the same computation on `new Date().setDate(new Date().getDate() + 1)` when
that instant is already strictly in the past. -/
def forecastStartDate (tz now : Int) : Int :=
  let startDate := jsSetHours tz now 8 0 0
  if startDate < now then
    jsSetHours tz (jsSetDate tz now (jsGetDate tz now + 1)) 8 0 0
  else startDate

/-- Nominal fire instants of the forecast job: the `setTimeout` fires at
`forecastStartDate` and the `setInterval` armed there re-fires every
`oneDayInMs = 8.64e7` milliseconds (idealised timer semantics: callbacks
take no time). -/
def forecastFireTime (tz now : Int) (n : Nat) : Int :=
  forecastStartDate tz now + (n : Int) * 86400000

/-! ## Query-string parameters as the specification describes them, and
sample inputs used to instantiate the theorems below -/

/-- A formatted entry whose indicator appears in no threshold row. -/
def gapEntry : FormattedAir :=
  { indicator := "benzene", current_value := 999999,
    air_image := "./legends/benzene-legend.png", cid := "aid9" }

/-- An air-quality payload with every indicator present (all values 1). -/
def fullSampleAQ1 : String → Option Int := fun ind =>
  if ind ∈ AIR_QUALITY_INDICATOR then some 1 else none

/-- An air-quality payload whose co value exceeds its threshold while every
other indicator sits at 1. -/
def alertSampleAQ : String → Option Int := fun ind =>
  if ind = "co" then some 8000
  else if ind = "no2" then some 100
  else if ind ∈ AIR_QUALITY_INDICATOR then some 1 else none

/-- The formatted entries of `alertSampleAQ`. -/
def alertSampleFormatted : List FormattedAir :=
  [{ indicator := "pm10", current_value := 1,
     air_image := "./legends/pm10-legend.png", cid := "aid0" },
   { indicator := "pm25", current_value := 1,
     air_image := "./legends/pm25-legend.png", cid := "aid1" },
   { indicator := "o3", current_value := 1,
     air_image := "./legends/o3-legend.png", cid := "aid2" },
   { indicator := "no2", current_value := 100,
     air_image := "./legends/no2-legend.png", cid := "aid3" },
   { indicator := "co", current_value := 8000,
     air_image := "./legends/co-legend.png", cid := "aid4" },
   { indicator := "so2", current_value := 1,
     air_image := "./legends/so2-legend.png", cid := "aid5" }]

/-- An air-quality payload carrying all six indicators with distinct
values. -/
def fullSampleAQ2 : String → Option Int := fun ind =>
  if ind = "pm10" then some 11
  else if ind = "pm25" then some 12
  else if ind = "o3" then some 13
  else if ind = "no2" then some 14
  else if ind = "co" then some 15
  else if ind = "so2" then some 16 else none

/-- A one-record weather list for instantiating the C7 theorem. -/
def sampleWeather : List WeatherRecord :=
  [{ observation_time := 374400000, weather_code := "mostly_clear",
     temp := ⟨21, "C"⟩, humidity := ⟨40, "percent"⟩, wind_speed := ⟨2, "m/s"⟩ }]

/-- The `key=value` text a scalar array element contributes; `none` for a
non-scalar element, which the code skips. -/
def scalarParam (key : String) : JSValue → Option String
  | .num n => some (key ++ "=" ++ intRepr n)
  | .str s => some (key ++ "=" ++ s)
  | _ => none

/-- The `key=value` texts one option pair emits, in order. -/
def paramsOf (kv : String × JSValue) : List String :=
  match kv.2 with
  | .num n => [kv.1 ++ "=" ++ intRepr n]
  | .str s => [kv.1 ++ "=" ++ s]
  | .arr l => l.filterMap (scalarParam kv.1)
  | .other => []

/-- All `key=value` texts an options mapping emits, in emission order. -/
def paramStrings (options : List (String × JSValue)) : List String :=
  options.flatMap paramsOf

/-- Modelled from the spec: parameters joined with `&` before every
parameter except the first. -/
def ampJoin : List String → String
  | [] => ""
  | p :: rest => rest.foldl (fun acc q => acc ++ "&" ++ q) p

/-- Modelled from the spec: the URL the specification describes — the base,
`?`, then the emitted parameters `&`-joined. -/
def specQueryString (request : String) (options : List (String × JSValue)) : String :=
  request ++ "?" ++ ampJoin (paramStrings options)

/-- The options mapping of the claim's worked example. -/
def sampleOptions : List (String × JSValue) :=
  [("a", JSValue.num 1), ("b", JSValue.arr [JSValue.str "x", JSValue.str "y"])]

/-- The formatted entries of `fullSampleAQ2`. -/
def sampleFormattedAir2 : List FormattedAir :=
  [{ indicator := "pm10", current_value := 11,
     air_image := "./legends/pm10-legend.png", cid := "aid0" },
   { indicator := "pm25", current_value := 12,
     air_image := "./legends/pm25-legend.png", cid := "aid1" },
   { indicator := "o3", current_value := 13,
     air_image := "./legends/o3-legend.png", cid := "aid2" },
   { indicator := "no2", current_value := 14,
     air_image := "./legends/no2-legend.png", cid := "aid3" },
   { indicator := "co", current_value := 15,
     air_image := "./legends/co-legend.png", cid := "aid4" },
   { indicator := "so2", current_value := 16,
     air_image := "./legends/so2-legend.png", cid := "aid5" }]

/-! ## Shared helper lemmas -/

theorem foldl_push_eq_map {α β : Type} (f : α → β) :
    ∀ (l : List α) (acc : List β),
      l.foldl (fun acc e => acc ++ [f e]) acc = acc ++ l.map f := by
  intro l
  induction l with
  | nil => simp
  | cons e rest ih => intro acc; simp [ih]

/-! ## C1: the forecast job's hourly filter -/

/-- C1 (amended): in the weather forecast job, a record is retained by the
filter if and only if the hour of day of its observation timestamp is in
`{8,10,12,14,16,18,20,22}` and the day of WEEK (`getDay`) of its
observation timestamp equals the current day of week — not the day of
month, which the original claim asserted. -/
theorem weatherForecastFilter_mem_iff (tz now : Int) (l : List WeatherRecord)
    (e : WeatherRecord) :
    e ∈ weatherForecastFilter tz now l ↔
      e ∈ l ∧ jsGetHours tz e.observation_time ∈ desiredHours ∧
        jsGetDay tz e.observation_time = jsGetDay tz now := by
  simp [weatherForecastFilter, List.mem_filter, and_assoc]

/-- C1 counterexample: at current instant 1970-01-05 09:00:00 UTC (day of
month 5), the record observed 1970-02-05 08:00:00 UTC also has day of month
5 and hour 8, one of the target hours, so the claim says it is retained —
but the filter drops it because the two instants fall on different days of
the week. -/
theorem weatherForecastFilter_counterexample :
    jsGetHours 0 3052800000 ∈ desiredHours ∧
    jsGetDate 0 3052800000 = jsGetDate 0 378000000 ∧
    jsGetDate 0 378000000 = 5 ∧
    weatherForecastFilter 0 378000000
      [{ observation_time := 3052800000, weather_code := "clear",
         temp := ⟨20, "C"⟩, humidity := ⟨50, "percent"⟩,
         wind_speed := ⟨3, "m/s"⟩ }] = [] := by
  decide

/-! ## C6: forecast attachment ordering -/

/-- C6: the attachment list of the weather forecast job equals the
weather-image attachments, one per formatted weather entry in order,
concatenated with the air-quality attachments, one per formatted
air-quality entry in order. -/
theorem forecastAttachments_eq (fw : List FormattedWeather) (fa : List FormattedAir) :
    forecastAttachments fw fa =
      fw.map (fun e => { path := e.weather_image, cid := e.cid }) ++
        fa.map (fun e => { path := e.air_image, cid := e.cid }) := by
  show (fa.foldl _ (fw.foldl _ [])) = _
  simp only [foldl_push_eq_map]
  simp

/-! ## C8: threshold-table gaps are benign -/

/-- C8: an entry whose indicator is absent from the threshold table compares
as `false` (JavaScript `>` against `undefined`), is never selected by the
alert filter, and the alert job still completes (returns a result) whenever
formatting succeeded. -/
theorem alertSelection_threshold_gap :
    (∀ (l : List FormattedAir) (e : FormattedAir), thresholds e.indicator = none →
      jsGtOption e.current_value (thresholds e.indicator) = false ∧
        e ∉ alertSelection l) ∧
    (∀ (aq : String → Option Int) (fl : List FormattedAir),
      formatAirQualityData aq = some fl → (airQualityAlertJob aq).isSome = true) := by
  constructor
  · intro l e h
    refine ⟨by rw [h]; rfl, ?_⟩
    simp [alertSelection, List.mem_filter, h, jsGtOption]
  · intro aq fl h
    simp [airQualityAlertJob, h]

theorem alertSelection_threshold_gap_witness :
    (thresholds gapEntry.indicator = none ∧
      jsGtOption gapEntry.current_value (thresholds gapEntry.indicator) = false ∧
      gapEntry ∉ alertSelection [gapEntry]) ∧
    ((formatAirQualityData fullSampleAQ1).isSome = true) :=
  ⟨⟨by decide, alertSelection_threshold_gap.1 [gapEntry] gapEntry (by decide)⟩,
    alertSelection_threshold_gap.2 fullSampleAQ1
      [{ indicator := "pm10", current_value := 1,
         air_image := "./legends/pm10-legend.png", cid := "aid0" },
       { indicator := "pm25", current_value := 1,
         air_image := "./legends/pm25-legend.png", cid := "aid1" },
       { indicator := "o3", current_value := 1,
         air_image := "./legends/o3-legend.png", cid := "aid2" },
       { indicator := "no2", current_value := 1,
         air_image := "./legends/no2-legend.png", cid := "aid3" },
       { indicator := "co", current_value := 1,
         air_image := "./legends/co-legend.png", cid := "aid4" },
       { indicator := "so2", current_value := 1,
         air_image := "./legends/so2-legend.png", cid := "aid5" }] (by decide)⟩

/-! ## C2: alert selection and email condition -/

/-- C2: whenever formatting succeeds, the alert job selects exactly the
formatted entries whose current value strictly exceeds their threshold-table
entry (a sublist, so order is preserved), and the alert email is sent if
and only if the selection is non-empty; on the entries
`{co: 8000, no2: 100}` with thresholds `{co: 7000, no2: 230}` only `co` is
selected; and when every value is at or below its threshold the job
completes normally with an empty selection and no email. -/
theorem airQualityAlertJob_selection :
    (∀ (aq : String → Option Int) (fl : List FormattedAir),
      formatAirQualityData aq = some fl →
      ∃ sel sent, airQualityAlertJob aq = some (sel, sent) ∧
        List.Sublist sel fl ∧
        (∀ e, e ∈ sel ↔
          e ∈ fl ∧ ∃ t, thresholds e.indicator = some t ∧ t < e.current_value) ∧
        (sent = true ↔ sel ≠ [])) ∧
    alertSelection
      [{ indicator := "co", current_value := 8000,
         air_image := "./legends/co-legend.png", cid := "aid4" },
       { indicator := "no2", current_value := 100,
         air_image := "./legends/no2-legend.png", cid := "aid3" }] =
      [{ indicator := "co", current_value := 8000,
         air_image := "./legends/co-legend.png", cid := "aid4" }] ∧
    (∀ (aq : String → Option Int) (fl : List FormattedAir),
      formatAirQualityData aq = some fl →
      (∀ e ∈ fl, ∀ t, thresholds e.indicator = some t → e.current_value ≤ t) →
      airQualityAlertJob aq = some ([], false)) := by
  refine ⟨?_, by decide, ?_⟩
  · intro aq fl h
    refine ⟨alertSelection fl, (alertSelection fl).length != 0,
      by simp [airQualityAlertJob, h], List.filter_sublist fl, ?_, ?_⟩
    · intro e
      rw [alertSelection, List.mem_filter]
      constructor
      · rintro ⟨hmem, hp⟩
        refine ⟨hmem, ?_⟩
        cases ht : thresholds e.indicator with
        | none => rw [ht] at hp; simp [jsGtOption] at hp
        | some t =>
          rw [ht] at hp
          simp only [jsGtOption, decide_eq_true_eq] at hp
          exact ⟨t, rfl, hp⟩
      · rintro ⟨hmem, t, ht, hlt⟩
        refine ⟨hmem, ?_⟩
        rw [ht]
        simpa [jsGtOption]
    · simp [bne_iff_ne, ← List.length_eq_zero]
  · intro aq fl h hb
    have hempty : alertSelection fl = [] := by
      rw [alertSelection, List.filter_eq_nil_iff]
      intro e he
      cases ht : thresholds e.indicator with
      | none => simp [jsGtOption]
      | some t =>
        have := hb e he t ht
        simp only [jsGtOption, decide_eq_true_eq]
        omega
    simp [airQualityAlertJob, h, hempty]

theorem airQualityAlertJob_selection_witness :
    ∃ sel sent, airQualityAlertJob alertSampleAQ = some (sel, sent) ∧
      List.Sublist sel alertSampleFormatted ∧
      (∀ e, e ∈ sel ↔
        e ∈ alertSampleFormatted ∧
          ∃ t, thresholds e.indicator = some t ∧ t < e.current_value) ∧
      (sent = true ↔ sel ≠ []) :=
  airQualityAlertJob_selection.1 alertSampleAQ alertSampleFormatted (by decide)

/-! ## C9: success domain of formatAirQualityData -/

theorem formatAirQualityDataAux_isSome (aq : String → Option Int) :
    ∀ (inds : List String) (k : Nat),
      (formatAirQualityDataAux aq k inds).isSome = true ↔
        ∀ ind ∈ inds, (aq ind).isSome = true := by
  intro inds
  induction inds with
  | nil => intro k; simp [formatAirQualityDataAux]
  | cons ind rest ih =>
    intro k
    rw [formatAirQualityDataAux]
    cases h : aq ind with
    | none => simp [h]
    | some v =>
      cases h2 : formatAirQualityDataAux aq (k + 1) rest with
      | none =>
        have := (ih (k + 1)).symm
        rw [h2] at this
        simp only [Option.isSome_none, Bool.false_eq_true, iff_false] at this
        simp [h, this]
      | some l =>
        have h3 := ih (k + 1)
        rw [h2] at h3
        simp only [Option.isSome_some, true_iff] at h3
        simp [h]
        exact h3

/-- C9: `formatAirQualityData` succeeds exactly when every indicator of the
fixed indicator set is present (and non-null) in the input object; a `none`
result models the exception thrown when reading `.value` of an absent
indicator. -/
theorem formatAirQualityData_isSome_iff (aq : String → Option Int) :
    (formatAirQualityData aq).isSome = true ↔
      ∀ ind ∈ AIR_QUALITY_INDICATOR, (aq ind).isSome = true := by
  rw [formatAirQualityData]
  exact formatAirQualityDataAux_isSome aq AIR_QUALITY_INDICATOR 0

/-! ## C4: formatAirQualityData on complete input -/

/-- C4: on an input carrying all six indicators, `formatAirQualityData`
returns the six formatted entries in the fixed indicator-set order
(regardless of the input object's own key order — the embedding reads the
input through lookups, never through its key order), each with the value
read at its indicator, legend image path, and sequential correlation id
`aid<i>`; the output length equals the indicator-set length. -/
theorem formatAirQualityData_complete (aq : String → Option Int)
    (v0 v1 v2 v3 v4 v5 : Int)
    (h0 : aq "pm10" = some v0) (h1 : aq "pm25" = some v1) (h2 : aq "o3" = some v2)
    (h3 : aq "no2" = some v3) (h4 : aq "co" = some v4) (h5 : aq "so2" = some v5) :
    formatAirQualityData aq = some
      [{ indicator := "pm10", current_value := v0,
         air_image := "./legends/pm10-legend.png", cid := "aid0" },
       { indicator := "pm25", current_value := v1,
         air_image := "./legends/pm25-legend.png", cid := "aid1" },
       { indicator := "o3", current_value := v2,
         air_image := "./legends/o3-legend.png", cid := "aid2" },
       { indicator := "no2", current_value := v3,
         air_image := "./legends/no2-legend.png", cid := "aid3" },
       { indicator := "co", current_value := v4,
         air_image := "./legends/co-legend.png", cid := "aid4" },
       { indicator := "so2", current_value := v5,
         air_image := "./legends/so2-legend.png", cid := "aid5" }] ∧
    AIR_QUALITY_INDICATOR.length = 6 := by
  have e0 : "aid" ++ natRepr 0 = "aid0" := by decide
  have e1 : "aid" ++ natRepr 1 = "aid1" := by decide
  have e2 : "aid" ++ natRepr 2 = "aid2" := by decide
  have e3 : "aid" ++ natRepr 3 = "aid3" := by decide
  have e4 : "aid" ++ natRepr 4 = "aid4" := by decide
  have e5 : "aid" ++ natRepr 5 = "aid5" := by decide
  refine ⟨?_, by decide⟩
  simp [formatAirQualityData, AIR_QUALITY_INDICATOR, formatAirQualityDataAux,
    h0, h1, h2, h3, h4, h5, e0, e1, e2, e3, e4, e5]

theorem formatAirQualityData_complete_witness :
    formatAirQualityData fullSampleAQ2 = some
      [{ indicator := "pm10", current_value := 11,
         air_image := "./legends/pm10-legend.png", cid := "aid0" },
       { indicator := "pm25", current_value := 12,
         air_image := "./legends/pm25-legend.png", cid := "aid1" },
       { indicator := "o3", current_value := 13,
         air_image := "./legends/o3-legend.png", cid := "aid2" },
       { indicator := "no2", current_value := 14,
         air_image := "./legends/no2-legend.png", cid := "aid3" },
       { indicator := "co", current_value := 15,
         air_image := "./legends/co-legend.png", cid := "aid4" },
       { indicator := "so2", current_value := 16,
         air_image := "./legends/so2-legend.png", cid := "aid5" }] ∧
    AIR_QUALITY_INDICATOR.length = 6 :=
  formatAirQualityData_complete fullSampleAQ2 11 12 13 14 15 16
    (by decide) (by decide) (by decide) (by decide) (by decide) (by decide)

/-! ## C7: formatWeatherData shape -/

theorem formatWeatherDataAux_length (tz : Int) :
    ∀ (data : List WeatherRecord) (k : Nat),
      (formatWeatherDataAux tz k data).length = data.length := by
  intro data
  induction data with
  | nil => intro k; rfl
  | cons e rest ih => intro k; simp [formatWeatherDataAux, ih]

theorem formatWeatherDataAux_get (tz : Int) :
    ∀ (data : List WeatherRecord) (k i : Nat) (h : i < data.length)
      (h2 : i < (formatWeatherDataAux tz k data).length),
      (formatWeatherDataAux tz k data).get ⟨i, h2⟩ =
        formatWeatherEntry tz (k + i) (data.get ⟨i, h⟩) := by
  intro data
  induction data with
  | nil => intro k i h h2; simp at h
  | cons e rest ih =>
    intro k i h h2
    cases i with
    | zero => rfl
    | succ j =>
      have hj : j < rest.length := by simpa using h
      have hj2 : j < (formatWeatherDataAux tz (k + 1) rest).length := by
        rw [formatWeatherDataAux_length]; exact hj
      have := ih (k + 1) j hj hj2
      simp only [formatWeatherDataAux, List.get_cons_succ]
      rw [this]
      congr 1
      omega

/-- C7: `formatWeatherData` preserves length and order; its `i`-th entry
carries the hour of day of the `i`-th record's observation timestamp, the
icon path built from the `i`-th record's weather code, correlation id
`wid<i>`, and the `i`-th record's temp/humidity/wind-speed values with
their units. -/
theorem formatWeatherData_spec (tz : Int) (data : List WeatherRecord) :
    (formatWeatherData tz data).length = data.length ∧
    ∀ (i : Nat) (h : i < data.length) (h2 : i < (formatWeatherData tz data).length),
      (formatWeatherData tz data).get ⟨i, h2⟩ =
        { hour := jsGetHours tz (data.get ⟨i, h⟩).observation_time
          weather_image := "./summary-icons/" ++ (data.get ⟨i, h⟩).weather_code ++ ".png"
          cid := "wid" ++ natRepr i
          temp := (data.get ⟨i, h⟩).temp.value
          temp_unit := (data.get ⟨i, h⟩).temp.units
          humidity := (data.get ⟨i, h⟩).humidity.value
          humidity_unit := (data.get ⟨i, h⟩).humidity.units
          wind_speed := (data.get ⟨i, h⟩).wind_speed.value
          wind_speed_unit := (data.get ⟨i, h⟩).wind_speed.units } := by
  constructor
  · exact formatWeatherDataAux_length tz data 0
  · intro i h h2
    have h3 := formatWeatherDataAux_get tz data 0 i h h2
    exact h3.trans (by simp [formatWeatherEntry])

theorem formatWeatherData_spec_witness :
    (formatWeatherData 0 sampleWeather).length = sampleWeather.length ∧
    (formatWeatherData 0 sampleWeather).get ⟨0, by decide⟩ =
      { hour := 8
        weather_image := "./summary-icons/mostly_clear.png"
        cid := "wid0"
        temp := 21
        temp_unit := "C"
        humidity := 40
        humidity_unit := "percent"
        wind_speed := 2
        wind_speed_unit := "m/s" } :=
  ⟨(formatWeatherData_spec 0 sampleWeather).1,
    ((formatWeatherData_spec 0 sampleWeather).2 0 (by decide) (by decide)).trans
      (by decide)⟩

/-! ## C3: queryBuilder against the spec's join -/

theorem lastQM_append (a b : String) (h : b.data ≠ []) :
    lastIsQuestionMark (a ++ b) = lastIsQuestionMark b := by
  simp only [lastIsQuestionMark, String.data_append, List.getLast?_append]
  cases hb : b.data.getLast? with
  | none =>
    exact absurd (List.getLast?_eq_none_iff.mp hb) h
  | some c => rfl

theorem queryStep_eq (kv : String × JSValue) :
    ∀ req, queryStep req kv = (paramsOf kv).foldl pushParam req := by
  obtain ⟨k, v⟩ := kv
  cases v with
  | num n => intro req; rfl
  | str s => intro req; rfl
  | other => intro req; rfl
  | arr l =>
    simp only [queryStep, paramsOf]
    induction l with
    | nil => intro req; rfl
    | cons e rest ih =>
      intro req
      cases e with
      | num n => simp only [List.foldl_cons, List.filterMap_cons, scalarParam]; exact ih _
      | str s => simp only [List.foldl_cons, List.filterMap_cons, scalarParam]; exact ih _
      | arr l2 => simp only [List.foldl_cons, List.filterMap_cons, scalarParam]; exact ih _
      | other => simp only [List.foldl_cons, List.filterMap_cons, scalarParam]; exact ih _

theorem queryBuilder_eq_foldl (request : String) (options : List (String × JSValue)) :
    queryBuilder request options = (paramStrings options).foldl pushParam (request ++ "?") := by
  rw [queryBuilder, paramStrings]
  generalize request ++ "?" = init
  induction options generalizing init with
  | nil => rfl
  | cons kv rest ih =>
    simp only [List.foldl_cons, List.flatMap_cons, List.foldl_append]
    rw [queryStep_eq kv init]
    exact ih _

theorem paramStrings_ne_nil (options : List (String × JSValue)) :
    ∀ p ∈ paramStrings options, p.data ≠ [] := by
  intro p hp
  rw [paramStrings, List.mem_flatMap] at hp
  obtain ⟨kv, _, hpin⟩ := hp
  obtain ⟨k, v⟩ := kv
  cases v with
  | num n =>
    simp only [paramsOf, List.mem_singleton] at hpin
    subst hpin
    simp [String.data_append]
  | str s =>
    simp only [paramsOf, List.mem_singleton] at hpin
    subst hpin
    simp [String.data_append]
  | other => simp [paramsOf] at hpin
  | arr l =>
    simp only [paramsOf, List.mem_filterMap] at hpin
    obtain ⟨e, _, he⟩ := hpin
    cases e with
    | num n =>
      simp only [scalarParam, Option.some.injEq] at he
      subst he
      simp [String.data_append]
    | str s =>
      simp only [scalarParam, Option.some.injEq] at he
      subst he
      simp [String.data_append]
    | arr l2 => simp [scalarParam] at he
    | other => simp [scalarParam] at he

theorem foldl_amp_shift (a : String) :
    ∀ (ps : List String) (b : String),
      ps.foldl (fun acc q => acc ++ "&" ++ q) (a ++ b) =
        a ++ ps.foldl (fun acc q => acc ++ "&" ++ q) b := by
  intro ps
  induction ps with
  | nil => intro b; rfl
  | cons q rest ih =>
    intro b
    simp only [List.foldl_cons]
    rw [String.append_assoc, String.append_assoc, ← String.append_assoc b "&" q]
    exact ih (b ++ "&" ++ q)

theorem emitAll_of_not_qm :
    ∀ (ps : List String) (req : String), lastIsQuestionMark req = false →
      (∀ p ∈ ps, p.data ≠ [] ∧ lastIsQuestionMark p = false) →
      ps.foldl pushParam req = ps.foldl (fun acc q => acc ++ "&" ++ q) req := by
  intro ps
  induction ps with
  | nil => intro req _ _; rfl
  | cons p rest ih =>
    intro req hreq hps
    simp only [List.foldl_cons]
    have h1 : pushParam req p = req ++ "&" ++ p := by
      simp [pushParam, hreq]
    rw [h1]
    apply ih
    · rw [String.append_assoc, lastQM_append req ("&" ++ p)
        (by simp [String.data_append, (hps p (List.mem_cons_self p rest)).1]),
        lastQM_append "&" p (hps p (List.mem_cons_self p rest)).1]
      exact (hps p (List.mem_cons_self p rest)).2
    · intro q hq
      exact hps q (List.mem_cons_of_mem p hq)

theorem emitAll_of_qm (ps : List String) (req : String)
    (hreq : lastIsQuestionMark req = true)
    (hps : ∀ p ∈ ps, p.data ≠ [] ∧ lastIsQuestionMark p = false) :
    ps.foldl pushParam req = req ++ ampJoin ps := by
  cases ps with
  | nil => rw [ampJoin]; exact (String.append_empty req).symm
  | cons p rest =>
    simp only [List.foldl_cons]
    have h1 : pushParam req p = req ++ p := by
      simp [pushParam, hreq]
    rw [h1, ampJoin,
      emitAll_of_not_qm rest (req ++ p)
        (by rw [lastQM_append req p (hps p (List.mem_cons_self p rest)).1]
            exact (hps p (List.mem_cons_self p rest)).2)
        (fun q hq => hps q (List.mem_cons_of_mem p hq)),
      foldl_amp_shift req rest p]

/-- C3 (amended): `queryBuilder` returns the base URL, `?`, and the emitted
`key=value` parameters (array values as repeated pairs, non-scalar
non-array values skipped) joined with `&` before every parameter but the
first — PROVIDED no emitted parameter's text ends with the character `'?'`.
The code keys the separator off the last character of the accumulated
string, so a parameter ending in `'?'` suppresses the following
parameter's `&`. -/
theorem queryBuilder_spec (request : String) (options : List (String × JSValue))
    (h : ∀ p ∈ paramStrings options, lastIsQuestionMark p = false) :
    queryBuilder request options = specQueryString request options := by
  rw [queryBuilder_eq_foldl, specQueryString, String.append_assoc]
  have hq : lastIsQuestionMark (request ++ "?") = true := by
    rw [lastQM_append request "?" (by decide)]
    decide
  rw [emitAll_of_qm (paramStrings options) (request ++ "?") hq
    (fun p hp => ⟨paramStrings_ne_nil options p hp, h p hp⟩)]
  rw [String.append_assoc]

/-- C3 counterexample: with the string value `"?"` for key `a`, the second
parameter `b=1` is emitted without its `&` separator, so the output is not
the `&`-joined string the claim describes. -/
theorem queryBuilder_counterexample :
    queryBuilder "u" [("a", JSValue.str "?"), ("b", JSValue.num 1)] = "u?a=?b=1" ∧
    specQueryString "u" [("a", JSValue.str "?"), ("b", JSValue.num 1)] = "u?a=?&b=1" ∧
    queryBuilder "u" [("a", JSValue.str "?"), ("b", JSValue.num 1)] ≠
      specQueryString "u" [("a", JSValue.str "?"), ("b", JSValue.num 1)] := by
  exact ⟨by decide, by decide, by decide⟩

theorem queryBuilder_spec_witness :
    queryBuilder "u" sampleOptions = specQueryString "u" sampleOptions ∧
    specQueryString "u" sampleOptions = "u?a=1&b=x&b=y" ∧
    queryBuilder "u" ([] : List (String × JSValue)) =
      specQueryString "u" ([] : List (String × JSValue)) ∧
    specQueryString "u" ([] : List (String × JSValue)) = "u?" :=
  ⟨queryBuilder_spec "u" sampleOptions (by decide), by decide,
    queryBuilder_spec "u" [] (by decide), by decide⟩

/-! ## C5: scheduler fire time -/

/-- C5 (amended): at startup instant `now`, if the local time of day is
strictly before 08:00:00.000 the first fire instant falls on the same civil
day at 08:00:00 (its millisecond field inherits `now`'s, since
`setHours(8,0,0)` leaves milliseconds untouched); if the local time of day
is at or past 08:00:01.000 the first fire instant falls on the next civil
day at 08:00:00 (instants inside the second 08:00:00.000–08:00:00.999 fire
the same day, effectively immediately, because the comparison
`Date.now() > startDate` sees the inherited milliseconds); and every
subsequent run is scheduled exactly 24 hours (8.64e7 ms) after the
previous one, with no recomputation against wall-clock 08:00. -/
theorem forecastStartDate_spec (tz now : Int) :
    (localMs tz now % 86400000 < 8 * 3600000 →
      jsDayNumber tz (forecastStartDate tz now) = jsDayNumber tz now ∧
      jsGetHours tz (forecastStartDate tz now) = 8 ∧
      jsGetMinutes tz (forecastStartDate tz now) = 0 ∧
      jsGetSeconds tz (forecastStartDate tz now) = 0) ∧
    (8 * 3600000 + 1000 ≤ localMs tz now % 86400000 →
      jsDayNumber tz (forecastStartDate tz now) = jsDayNumber tz now + 1 ∧
      jsGetHours tz (forecastStartDate tz now) = 8 ∧
      jsGetMinutes tz (forecastStartDate tz now) = 0 ∧
      jsGetSeconds tz (forecastStartDate tz now) = 0) ∧
    (∀ n : Nat, forecastFireTime tz now (n + 1) = forecastFireTime tz now n + 86400000) := by
  refine ⟨?_, ?_, ?_⟩
  · intro h
    have hbr : ¬ (jsSetHours tz now 8 0 0 < now) := by
      simp only [jsSetHours, jsDayNumber, localMs] at *
      omega
    rw [forecastStartDate, if_neg hbr]
    refine ⟨?_, ?_, ?_, ?_⟩ <;>
      · simp only [jsDayNumber, jsGetHours, jsGetMinutes, jsGetSeconds, jsSetHours, localMs] at *
        omega
  · intro h
    have hbr : jsSetHours tz now 8 0 0 < now := by
      simp only [jsSetHours, jsDayNumber, localMs] at *
      omega
    rw [forecastStartDate, if_pos hbr]
    refine ⟨?_, ?_, ?_, ?_⟩ <;>
      · simp only [jsDayNumber, jsGetHours, jsGetMinutes, jsGetSeconds, jsSetHours,
          jsSetDate, localMs] at *
        omega
  · intro n
    simp only [forecastFireTime]
    push_cast
    ring

/-- C5 counterexample: at `now` = 1970-01-05 08:00:00.500 UTC — strictly
after that day's 08:00:00.000 — the claim demands a first fire on the next
day at 08:00, but the computed start date is `now` itself: the same civil
day, 500 ms past 08:00. -/
theorem forecastStartDate_counterexample :
    jsDayNumber 0 374400500 * 86400000 + 8 * 3600000 < 374400500 ∧
    forecastStartDate 0 374400500 = 374400500 ∧
    jsDayNumber 0 (forecastStartDate 0 374400500) = jsDayNumber 0 374400500 ∧
    jsGetMilliseconds 0 (forecastStartDate 0 374400500) = 500 := by
  exact ⟨by decide, by decide, by decide, by decide⟩

theorem forecastStartDate_spec_witness :
    (localMs 0 345600000 % 86400000 < 8 * 3600000 ∧
      jsDayNumber 0 (forecastStartDate 0 345600000) = jsDayNumber 0 345600000 ∧
      jsGetHours 0 (forecastStartDate 0 345600000) = 8 ∧
      jsGetMinutes 0 (forecastStartDate 0 345600000) = 0 ∧
      jsGetSeconds 0 (forecastStartDate 0 345600000) = 0) ∧
    (8 * 3600000 + 1000 ≤ localMs 0 374401000 % 86400000 ∧
      jsDayNumber 0 (forecastStartDate 0 374401000) = jsDayNumber 0 374401000 + 1 ∧
      jsGetHours 0 (forecastStartDate 0 374401000) = 8 ∧
      jsGetMinutes 0 (forecastStartDate 0 374401000) = 0 ∧
      jsGetSeconds 0 (forecastStartDate 0 374401000) = 0) ∧
    forecastFireTime 0 345600000 1 = forecastFireTime 0 345600000 0 + 86400000 :=
  ⟨⟨by decide, (forecastStartDate_spec 0 345600000).1 (by decide)⟩,
    ⟨by decide, (forecastStartDate_spec 0 374401000).2.1 (by decide)⟩,
    (forecastStartDate_spec 0 345600000).2.2 0⟩

/-! ## C10: correlation-id distinctness -/

theorem formatWeatherDataAux_cids (tz : Int) :
    ∀ (data : List WeatherRecord) (k : Nat),
      (formatWeatherDataAux tz k data).map FormattedWeather.cid =
        (List.range' k data.length).map (fun i => "wid" ++ natRepr i) := by
  intro data
  induction data with
  | nil => intro k; rfl
  | cons e rest ih =>
    intro k
    simp only [formatWeatherDataAux, List.map_cons, List.length_cons, List.range'_succ]
    rw [ih (k + 1)]
    rfl

theorem formatAirQualityDataAux_cids (aq : String → Option Int) :
    ∀ (inds : List String) (k : Nat) (fl : List FormattedAir),
      formatAirQualityDataAux aq k inds = some fl →
      fl.map FormattedAir.cid =
        (List.range' k inds.length).map (fun i => "aid" ++ natRepr i) := by
  intro inds
  induction inds with
  | nil =>
    intro k fl h
    simp only [formatAirQualityDataAux, Option.some.injEq] at h
    subst h
    rfl
  | cons ind rest ih =>
    intro k fl h
    rw [formatAirQualityDataAux] at h
    cases h1 : aq ind with
    | none => rw [h1] at h; exact absurd h (by simp)
    | some v =>
      rw [h1] at h
      cases h2 : formatAirQualityDataAux aq (k + 1) rest with
      | none => rw [h2] at h; exact absurd h (by simp)
      | some l =>
        rw [h2] at h
        simp only [Option.some.injEq] at h
        subst h
        simp only [List.map_cons, List.length_cons, List.range'_succ]
        rw [ih (k + 1) l h2]

theorem widCid_injective : Function.Injective (fun i : Nat => "wid" ++ natRepr i) := by
  intro i j hij
  simp only at hij
  have hd := congrArg String.data hij
  simp only [String.data_append] at hd
  have h2 : (natRepr i).data = (natRepr j).data := List.append_cancel_left hd
  have h3 : natReprAux i i [] = natReprAux j j [] := h2
  have h4 := congrArg digitsVal h3
  rw [digitsVal_natReprAux i i [] (le_refl i),
      digitsVal_natReprAux j j [] (le_refl j)] at h4
  simpa using h4

theorem wid_ne_aid (s t : String) : "wid" ++ s ≠ "aid" ++ t := by
  intro h
  have hd := congrArg String.data h
  simp only [String.data_append] at hd
  simp only [List.cons_append, List.nil_append] at hd
  injection hd with hc _
  exact absurd hc (by decide)

theorem wid_not_mem_aids (s : String) :
    "wid" ++ s ∉ ["aid0", "aid1", "aid2", "aid3", "aid4", "aid5"] := by
  intro hmem
  simp only [List.mem_cons, List.not_mem_nil, or_false] at hmem
  rcases hmem with h | h | h | h | h | h
  · exact wid_ne_aid s "0" (h.trans (by decide))
  · exact wid_ne_aid s "1" (h.trans (by decide))
  · exact wid_ne_aid s "2" (h.trans (by decide))
  · exact wid_ne_aid s "3" (h.trans (by decide))
  · exact wid_ne_aid s "4" (h.trans (by decide))
  · exact wid_ne_aid s "5" (h.trans (by decide))

/-- C10: in the forecast email the attachment correlation ids are exactly
`wid0 … wid(n-1)` (one per weather entry, in order) followed by
`aid0 … aid5`, and they are pairwise distinct; in the alert email each
selected entry keeps the `aid<i>` assigned from its index in the full
indicator set, the attachments' cids coincide with the cids of the rendered
entries, and they remain pairwise distinct (a sublist of `aid0 … aid5`). -/
theorem attachmentCids_distinct (tz : Int) (wdata : List WeatherRecord)
    (aq : String → Option Int) (fl : List FormattedAir)
    (h : formatAirQualityData aq = some fl) :
    ((forecastAttachments (formatWeatherData tz wdata) fl).map Attachment.cid =
        (List.range wdata.length).map (fun i => "wid" ++ natRepr i) ++
          ["aid0", "aid1", "aid2", "aid3", "aid4", "aid5"] ∧
      ((forecastAttachments (formatWeatherData tz wdata) fl).map Attachment.cid).Nodup) ∧
    ((alertAttachments (alertSelection fl)).map Attachment.cid =
        (alertSelection fl).map FormattedAir.cid ∧
      List.Sublist ((alertSelection fl).map FormattedAir.cid)
        ["aid0", "aid1", "aid2", "aid3", "aid4", "aid5"] ∧
      ((alertSelection fl).map FormattedAir.cid).Nodup) := by
  have hfl : fl.map FormattedAir.cid = ["aid0", "aid1", "aid2", "aid3", "aid4", "aid5"] := by
    have h6 := formatAirQualityDataAux_cids aq AIR_QUALITY_INDICATOR 0 fl h
    exact h6.trans (by decide)
  have hw : (formatWeatherData tz wdata).map FormattedWeather.cid =
      (List.range wdata.length).map (fun i => "wid" ++ natRepr i) := by
    rw [List.range_eq_range']
    exact formatWeatherDataAux_cids tz wdata 0
  have hatt : (forecastAttachments (formatWeatherData tz wdata) fl).map Attachment.cid =
      (formatWeatherData tz wdata).map FormattedWeather.cid ++ fl.map FormattedAir.cid := by
    show ((fl.foldl _ ((formatWeatherData tz wdata).foldl _ [])).map _) = _
    simp only [foldl_push_eq_map, List.nil_append, List.map_append, List.map_map]
    rfl
  have hcids : (forecastAttachments (formatWeatherData tz wdata) fl).map Attachment.cid =
      (List.range wdata.length).map (fun i => "wid" ++ natRepr i) ++
        ["aid0", "aid1", "aid2", "aid3", "aid4", "aid5"] := by
    rw [hatt, hw, hfl]
  have hsub : List.Sublist ((alertSelection fl).map FormattedAir.cid)
      ["aid0", "aid1", "aid2", "aid3", "aid4", "aid5"] := by
    rw [← hfl]
    exact (List.filter_sublist fl).map FormattedAir.cid
  refine ⟨⟨hcids, ?_⟩, ?_, hsub, List.Nodup.sublist hsub (by decide)⟩
  · rw [hcids]
    refine List.Nodup.append ?_ (by decide) ?_
    · exact (List.nodup_range wdata.length).map widCid_injective
    · rw [List.disjoint_left]
      intro a ha hb
      rw [List.mem_map] at ha
      obtain ⟨i, _, hi⟩ := ha
      subst hi
      exact wid_not_mem_aids (natRepr i) hb
  · show ((alertSelection fl).foldl _ []).map _ = _
    simp only [foldl_push_eq_map, List.nil_append, List.map_map]
    rfl

theorem attachmentCids_distinct_witness :
    ((forecastAttachments (formatWeatherData 0 sampleWeather) sampleFormattedAir2).map
        Attachment.cid =
        (List.range sampleWeather.length).map (fun i => "wid" ++ natRepr i) ++
          ["aid0", "aid1", "aid2", "aid3", "aid4", "aid5"] ∧
      ((forecastAttachments (formatWeatherData 0 sampleWeather) sampleFormattedAir2).map
        Attachment.cid).Nodup) ∧
    ((alertAttachments (alertSelection sampleFormattedAir2)).map Attachment.cid =
        (alertSelection sampleFormattedAir2).map FormattedAir.cid ∧
      List.Sublist ((alertSelection sampleFormattedAir2).map FormattedAir.cid)
        ["aid0", "aid1", "aid2", "aid3", "aid4", "aid5"] ∧
      ((alertSelection sampleFormattedAir2).map FormattedAir.cid).Nodup) :=
  attachmentCids_distinct 0 sampleWeather fullSampleAQ2 sampleFormattedAir2 (by decide)
